import Mathlib

/-!
Verification of the session state machine and silence-driven turn-taking
controller of the voice-assistant front-end (`src/App.tsx`, the revision
using `isStoppingRef`/`statusRef`/`cleanupAndReset`).

The component's mutable React state and refs are embedded as one record
`SessionState`; each event handler of the source becomes a pure function
on that record.  Browser resources are tracked by explicit bookkeeping
fields:

* `timersLive` / `refLive` model `setTimeout`/`clearTimeout` and the
  `silenceTimeoutRef`: `timersLive` counts live (scheduled, not yet fired
  or cancelled) timers, and `refLive` says whether `silenceTimeoutRef`
  currently holds the id of a live timer (`clearTimeout` on a fired or
  cleared id is a no-op, which is why the flag and not ref-nullness is
  what matters).
* `recognitionActive` models `recognitionRef.current !== null` together
  with the handlers being attached (the source sets and clears both
  together), `recRunning` models the platform session being between its
  `start` and `end` events.
* `requests` counts `fetch` calls issued; `inFlight` is true while one
  is awaited.
* `urlAllocated` / `revokes` model the object URL given to the response
  audio element (`URL.createObjectURL` / `URL.revokeObjectURL`);
  `audioHandlers` models the response element's `onplay`/`onended`/
  `onerror` being attached; `playPending` models the outstanding
  `audioEl.play()` promise.

Presentational details (CSS class computation, the `statusText`-syncing
`useEffect`, the beep element, `unlockAudio`'s `audioUnlockedRef`) are
outside the session state the specification describes; `statusText` is
kept because the handlers write it directly.
-/

namespace IAVoice

/-- The `AssistantStatus` enumeration from `types.ts` as used by `App.tsx`. -/
inductive AssistantStatus where
  | idle
  | listening
  | processing
  | playing
  | error
deriving DecidableEq, Repr

/-- One entry of `event.results`: its `isFinal` flag and the transcript of
its first alternative (`results[i][0].transcript`), which is all the
handler reads. -/
structure RecResult where
  isFinal : Bool
  transcript : String
deriving DecidableEq, Repr

/-- The session state of the component: React state (`status`,
`statusText`), the refs (`recognitionRef`, `silenceTimeoutRef`,
`lastTranscriptRef`, `isStoppingRef`) and explicit resource bookkeeping
for timers, the network request and the playback object URL. -/
structure SessionState where
  status : AssistantStatus
  statusText : String
  recognitionActive : Bool
  recRunning : Bool
  timersLive : Nat
  refLive : Bool
  transcript : String
  isStopping : Bool
  requests : Nat
  inFlight : Bool
  urlAllocated : Bool
  revokes : Nat
  audioHandlers : Bool
  playPending : Bool
deriving DecidableEq, Repr

/-- Initial state: `useState(AssistantStatus.IDLE)`,
`useState('Clique para falar')`, all refs null/false/empty. -/
def initState : SessionState :=
  { status := .idle
    statusText := "Clique para falar"
    recognitionActive := false
    recRunning := false
    timersLive := 0
    refLive := false
    transcript := ""
    isStopping := false
    requests := 0
    inFlight := false
    urlAllocated := false
    revokes := 0
    audioHandlers := false
    playPending := false }

/-- JavaScript `String.prototype.trim()` as the source uses it: strip
leading and trailing whitespace.  Implemented over the character list by
structural recursion so that concrete states evaluate inside proofs. -/
def strTrim (s : String) : String :=
  ⟨((s.data.dropWhile Char.isWhitespace).reverse.dropWhile Char.isWhitespace).reverse⟩

/-- `if (silenceTimeoutRef.current) clearTimeout(silenceTimeoutRef.current)`:
cancels the referenced timer when it is still live; `clearTimeout` on an
already fired or cleared id does nothing.  Afterwards the ref no longer
holds a live timer. -/
def clearRefTimer (s : SessionState) : SessionState :=
  if s.refLive then { s with timersLive := s.timersLive - 1, refLive := false }
  else s

/-- `silenceTimeoutRef.current = setTimeout(() => stopAndProcess(), ms)`
preceded by the guard that clears any pending timer first (both arming
sites of the source, `onstart` with 4000 ms and `onresult` with 1500 ms,
do exactly this). -/
def armTimer (s : SessionState) : SessionState :=
  let s1 := clearRefTimer s
  { s1 with timersLive := s1.timersLive + 1, refLive := true }

/-- The synchronous part of `stopAndProcess` (lines 340-374): the
re-entrancy guard, setting `isStoppingRef`, cancelling the silence timer,
detaching and stopping the recognition session, and then either the
empty-transcript early return to Idle or the transition to Processing
together with issuing the `fetch` (counted in `requests`, tracked in
`inFlight`).  Everything after `await fetch` is a separate continuation,
modelled by `fetchSuccess` / `fetchFailure` below. -/
def stopAndProcessSync (s : SessionState) : SessionState :=
  if s.isStopping = true ∨ s.status ≠ AssistantStatus.listening then s
  else
    let s1 := { s with isStopping := true }
    let s2 := clearRefTimer s1
    let s3 :=
      if s2.recognitionActive then
        { s2 with recognitionActive := false, recRunning := false }
      else s2
    if strTrim s3.transcript = "" then
      { s3 with status := .idle, isStopping := false }
    else
      { s3 with status := .processing, requests := s3.requests + 1, inFlight := true }

/-- The `catch` block of `stopAndProcess` (lines 423-432): any transport
failure or the `throw` on a non-2xx response sets status to Error with
the communication-failure text and clears the guard.  (All values thrown
on these paths are `Error` instances, so the `instanceof Error` branch is
the one taken.) -/
def fetchFailure (s : SessionState) : SessionState :=
  { s with status := .error
           statusText := "Erro de comunicação."
           isStopping := false
           inFlight := false }

/-- The success continuation after `await fetch` (lines 380-416): read the
blob, create an object URL (revoking a leftover blob URL first), attach
the response audio element's handlers and call `play()`.  The response
`<audio>` element is always rendered, so `audioEl` is present. -/
def fetchSuccess (s : SessionState) : SessionState :=
  let s1 :=
    if s.urlAllocated then { s with urlAllocated := false, revokes := s.revokes + 1 }
    else s
  { s1 with urlAllocated := true
            audioHandlers := true
            playPending := true
            inFlight := false }

/-- `cleanupAndReset` (lines 393-402): revoke the blob URL if one is set,
return status to Idle, clear the guard and detach the audio handlers. -/
def cleanupAndReset (s : SessionState) : SessionState :=
  let s1 :=
    if s.urlAllocated then { s with urlAllocated := false, revokes := s.revokes + 1 }
    else s
  { s1 with status := .idle, isStopping := false, audioHandlers := false }

/-- `audioEl.onplay` (line 407). -/
def audioOnplay (s : SessionState) : SessionState :=
  { s with status := .playing }

/-- `audioEl.onended` (line 408). -/
def audioOnended (s : SessionState) : SessionState :=
  cleanupAndReset s

/-- `audioEl.onerror` (lines 409-414): set Error with the playback-failure
text, then run `cleanupAndReset`. -/
def audioOnerror (s : SessionState) : SessionState :=
  cleanupAndReset { s with status := .error, statusText := "Falha ao tocar o áudio." }

/-- The rejection handler of `audioEl.play().catch` (lines 416-421): set
Error with the autoplay-permission text, then run `cleanupAndReset`. -/
def playRejected (s : SessionState) : SessionState :=
  cleanupAndReset
    { s with status := .error, statusText := "Clique para permitir a reprodução de áudio." }

/-- The body of `startRecognition` (lines 435-512) in the
capability-available case and its unavailable early return; `startOk`
distinguishes `recognition.start()` succeeding from it throwing (lines
505-511).  Stops and drops a leftover recognition session, resets the
transcript and the guard, and installs a fresh session with handlers
attached.  The beep element is presentational and not modelled. -/
def startRecognition (avail startOk : Bool) (s : SessionState) : SessionState :=
  if avail = false then
    { s with status := .error, statusText := "Reconhecimento de voz não é suportado." }
  else
    let s1 :=
      if s.recognitionActive then
        { s with recognitionActive := false, recRunning := false }
      else s
    let s2 :=
      { s1 with transcript := ""
                isStopping := false
                recognitionActive := true
                recRunning := false }
    if startOk then s2
    else { s2 with status := .error, statusText := "Não foi possível iniciar o microfone." }

/-- `recognition.onstart` (lines 459-463): enter Listening and arm the
long no-speech-yet silence timer (clearing any pending one first). -/
def recOnstart (s : SessionState) : SessionState :=
  armTimer { s with status := .listening }

/-- The accumulation loop of `recognition.onresult` (lines 467-475): a
single pass over `event.results` appending each result's first
alternative to `final_transcript` or `interim_transcript` by its
`isFinal` flag. -/
def accumulate (rs : List RecResult) : String × String :=
  rs.foldl
    (fun acc r =>
      if r.isFinal then (acc.1 ++ r.transcript, acc.2) else (acc.1, acc.2 ++ r.transcript))
    ("", "")

/-- `recognition.onresult` (lines 465-486): rebuild final and interim text
from the full result list, store the trimmed concatenation
`(final_transcript + interim_transcript).trim()` in `lastTranscriptRef`,
update the status text, and re-arm the inter-fragment silence timer. -/
def recOnresult (rs : List RecResult) (s : SessionState) : SessionState :=
  let p := accumulate rs
  let full := strTrim (p.1 ++ p.2)
  armTimer
    { s with transcript := full
             statusText := if full = "" then "Ouvindo..." else full }

/-- `recognition.onerror` (lines 488-499): suppressed while
`isStoppingRef.current` is set; otherwise transition to Error with a
message chosen by the error kind. -/
def recOnerror (kind : String) (s : SessionState) : SessionState :=
  if s.isStopping then s
  else
    { s with status := .error
             statusText :=
               if kind = "no-speech" then "Não ouvi nada. Tente de novo."
               else if kind = "not-allowed" ∨ kind = "service-not-allowed" then
                 "A permissão do microfone foi negada."
               else "Erro de microfone: " ++ kind }

/-- `recognition.onend = () => {}` (line 503): the handler does nothing. -/
def recOnend (s : SessionState) : SessionState := s

/-- `handleOrbClick` (lines 527-535) combined with the `isClickable` gate
of the JSX (lines 618-624): in Listening finalize; in Idle or Error start
a new turn; in Processing and Playing the `onClick` is not even attached,
so the click changes nothing.  `unlockAudio` touches only
`audioUnlockedRef`, which is outside the session state. -/
def handleOrbClick (avail startOk : Bool) (s : SessionState) : SessionState :=
  if s.status = AssistantStatus.listening then stopAndProcessSync s
  else if s.status = AssistantStatus.idle ∨ s.status = AssistantStatus.error then
    startRecognition avail startOk s
  else s

/-- The silence timer firing: the platform consumes the scheduled timer
(the ref now points at a fired id, on which `clearTimeout` is a no-op)
and runs its callback `stopAndProcess`. -/
def consumeTimer (s : SessionState) : SessionState :=
  { s with timersLive := s.timersLive - 1, refLive := false }

/-- The events the environment can deliver to the controller. -/
inductive Ev where
  | click (avail startOk : Bool)
  | timerFire
  | recStartEv
  | recResultEv (rs : List RecResult)
  | recErrorEv (kind : String)
  | recEndEv
  | fetchOkEv
  | fetchFailEv
  | playStartedEv
  | playEndedEv
  | playFailedEv
  | playRejectedEv

/-- Effect of one event: the source handler plus the environment
bookkeeping (a session that fires `start` is now running, one that fires
`end` no longer is, a settled `play()` promise is no longer pending). -/
def step (s : SessionState) : Ev → SessionState
  | .click avail startOk => handleOrbClick avail startOk s
  | .timerFire => stopAndProcessSync (consumeTimer s)
  | .recStartEv => { recOnstart s with recRunning := true }
  | .recResultEv rs => recOnresult rs s
  | .recErrorEv kind => recOnerror kind s
  | .recEndEv => { recOnend s with recRunning := false }
  | .fetchOkEv => fetchSuccess s
  | .fetchFailEv => fetchFailure s
  | .playStartedEv => { audioOnplay s with playPending := false }
  | .playEndedEv => audioOnended s
  | .playFailedEv => audioOnerror s
  | .playRejectedEv => { playRejected s with playPending := false }

/-- When an event can be delivered: clicks always; the silence timer only
while a live timer is referenced; recognition events only from the
attached session (results and end only once it has started, an error also
before, e.g. a permission denial); network continuations only while a
request is awaited; audio events only while the response element's
handlers are attached; a `play()` settlement only while the call is
outstanding. -/
def canFire (s : SessionState) : Ev → Bool
  | .click _ _ => true
  | .timerFire => s.refLive
  | .recStartEv => s.recognitionActive && !s.recRunning
  | .recResultEv _ => s.recognitionActive && s.recRunning
  | .recErrorEv _ => s.recognitionActive
  | .recEndEv => s.recognitionActive && s.recRunning
  | .fetchOkEv => s.inFlight
  | .fetchFailEv => s.inFlight
  | .playStartedEv => s.audioHandlers && s.playPending
  | .playEndedEv => s.audioHandlers
  | .playFailedEv => s.audioHandlers
  | .playRejectedEv => s.audioHandlers && s.playPending

/-- States reachable from the initial state by valid events. -/
inductive Reachable : SessionState → Prop
  | init : Reachable initState
  | next {s : SessionState} (e : Ev) :
      Reachable s → canFire s e = true → Reachable (step s e)

/-- Concatenation, in list order, of the transcripts of the results
flagged final (`final_transcript` of the handler). -/
def concatFinal : List RecResult → String
  | [] => ""
  | r :: rs => (if r.isFinal then r.transcript else "") ++ concatFinal rs

/-- Concatenation, in list order, of the transcripts of the results not
flagged final (`interim_transcript` of the handler). -/
def concatInterim : List RecResult → String
  | [] => ""
  | r :: rs => (if r.isFinal then "" else r.transcript) ++ concatInterim rs

/-- A concrete turn just begun: click from Idle, the session starts; no
speech yet, so the transcript is still empty. -/
def demoListeningEmpty : SessionState :=
  step (step initState (.click true true)) .recStartEv

/-- The same turn after one final result "oi" arrives. -/
def demoListening : SessionState :=
  step demoListeningEmpty (.recResultEv [⟨true, "oi"⟩])

/-- The silence timer then fires: the turn is finalized and the request
is issued. -/
def demoProcessing : SessionState := step demoListening .timerFire

/-- The exchange succeeds: the audio payload is prepared for playback. -/
def demoExchange : SessionState := step demoProcessing .fetchOkEv

/-- A recognition error (kind "network") delivered while Listening: the
error handler transitions to Error but does not touch the silence
timer. -/
def demoErrorWithTimer : SessionState := step demoListening (.recErrorEv "network")

/-- Inductive invariant of the controller.  Its timer clauses: at most
one silence timer is ever live, the ref holds exactly the live one,
exactly one is pending while Listening and none while Idle, Processing or
Playing (Error is deliberately unconstrained: a recognition error leaves
the pending timer running).  The remaining clauses tie resource ownership
to the phase and are needed to push the timer clauses through the
induction. -/
def ControllerInv (s : SessionState) : Prop :=
  s.timersLive ≤ 1 ∧
  (s.refLive = true ↔ s.timersLive = 1) ∧
  (s.status = AssistantStatus.listening → s.timersLive = 1) ∧
  (s.status = AssistantStatus.idle → s.timersLive = 0) ∧
  (s.status = AssistantStatus.processing → s.timersLive = 0) ∧
  (s.status = AssistantStatus.playing → s.timersLive = 0) ∧
  (s.status = AssistantStatus.idle → s.recRunning = false) ∧
  (s.status = AssistantStatus.processing → s.recognitionActive = false) ∧
  (s.status = AssistantStatus.playing → s.recognitionActive = false) ∧
  (s.recRunning = true → s.recognitionActive = true) ∧
  (s.inFlight = true → s.status = AssistantStatus.processing) ∧
  (s.audioHandlers = true →
    s.status = AssistantStatus.processing ∨ s.status = AssistantStatus.playing) ∧
  (s.inFlight = true → s.audioHandlers = false) ∧
  (s.status = AssistantStatus.listening → s.isStopping = false) ∧
  (s.isStopping = true → s.recognitionActive = false)

/-! ## Helper lemmas -/

theorem stopAndProcessSync_guarded (s : SessionState)
    (h : s.isStopping = true ∨ s.status ≠ AssistantStatus.listening) :
    stopAndProcessSync s = s := by
  unfold stopAndProcessSync
  rw [if_pos h]

theorem stopAndProcessSync_run (s : SessionState) (h1 : s.isStopping = false)
    (h2 : s.status = AssistantStatus.listening) :
    stopAndProcessSync s =
      if strTrim s.transcript = "" then
        { s with status := .idle, isStopping := false,
                 timersLive := if s.refLive then s.timersLive - 1 else s.timersLive,
                 refLive := false,
                 recognitionActive := false,
                 recRunning := if s.recognitionActive then false else s.recRunning }
      else
        { s with status := .processing, isStopping := true,
                 timersLive := if s.refLive then s.timersLive - 1 else s.timersLive,
                 refLive := false,
                 recognitionActive := false,
                 recRunning := if s.recognitionActive then false else s.recRunning,
                 requests := s.requests + 1, inFlight := true } := by
  unfold stopAndProcessSync clearRefTimer
  rw [if_neg (by simp [h1, h2])]
  by_cases hrl : s.refLive = true <;>
    by_cases hra : s.recognitionActive = true <;>
      simp_all

theorem armTimer_eq (s : SessionState) :
    armTimer s =
      { s with timersLive := (if s.refLive then s.timersLive - 1 else s.timersLive) + 1,
               refLive := true } := by
  unfold armTimer clearRefTimer
  by_cases hrl : s.refLive = true <;> simp_all

theorem cleanupAndReset_eq (s : SessionState) :
    cleanupAndReset s =
      { s with status := .idle, isStopping := false, audioHandlers := false,
               urlAllocated := false,
               revokes := if s.urlAllocated then s.revokes + 1 else s.revokes } := by
  unfold cleanupAndReset
  by_cases hu : s.urlAllocated = true <;> simp_all

theorem accumulate_go (rs : List RecResult) (a b : String) :
    rs.foldl
      (fun acc r =>
        if r.isFinal then (acc.1 ++ r.transcript, acc.2) else (acc.1, acc.2 ++ r.transcript))
      (a, b) = (a ++ concatFinal rs, b ++ concatInterim rs) := by
  induction rs generalizing a b with
  | nil => simp [concatFinal, concatInterim, String.append_empty]
  | cons r rs ih =>
      by_cases hf : r.isFinal <;>
        simp [concatFinal, concatInterim, hf, ih, String.append_assoc,
          String.empty_append, String.append_empty]

theorem accumulate_eq (rs : List RecResult) :
    accumulate rs = (concatFinal rs, concatInterim rs) := by
  simpa [accumulate, String.empty_append] using accumulate_go rs "" ""

theorem concatInterim_of_all_final (rs : List RecResult)
    (h : ∀ r ∈ rs, r.isFinal = true) : concatInterim rs = "" := by
  induction rs with
  | nil => rfl
  | cons r rs ih =>
      have hr := h r (List.mem_cons_self r rs)
      simp only [concatInterim, hr, if_pos]
      rw [String.empty_append]
      exact ih fun x hx => h x (List.mem_cons_of_mem r hx)

/-! ## Claims -/

/-- Claim C1: finalization runs at most once per turn.  A second
invocation of `stopAndProcess` while one is in flight leaves the state of
the first invocation exactly as it was (the guard makes the call a
no-op), and a single invocation issues at most one network request, so at
most one request is issued for the turn even when the silence timer fire
races a user click. -/
theorem finalize_at_most_once (s : SessionState) :
    stopAndProcessSync (stopAndProcessSync s) = stopAndProcessSync s ∧
    (stopAndProcessSync s).requests ≤ s.requests + 1 := by
  constructor
  · by_cases h : s.isStopping = true ∨ s.status ≠ AssistantStatus.listening
    · rw [stopAndProcessSync_guarded s h, stopAndProcessSync_guarded s h]
    · push_neg at h
      obtain ⟨h1, h2⟩ := h
      simp only [ne_eq, Bool.not_eq_true] at h1
      rw [stopAndProcessSync_run s h1 h2]
      by_cases htr : strTrim s.transcript = "" <;>
        [rw [if_pos htr]; rw [if_neg htr]] <;>
        apply stopAndProcessSync_guarded <;> simp
  · by_cases h : s.isStopping = true ∨ s.status ≠ AssistantStatus.listening
    · rw [stopAndProcessSync_guarded s h]
      omega
    · push_neg at h
      obtain ⟨h1, h2⟩ := h
      simp only [ne_eq, Bool.not_eq_true] at h1
      rw [stopAndProcessSync_run s h1 h2]
      by_cases htr : strTrim s.transcript = "" <;> simp [htr]

/-- Claim C9: invoking `stopAndProcess` when the status is not Listening,
or while a finalization is already in flight, returns immediately and
leaves the entire session state unchanged. -/
theorem finalize_noop_when_guarded (s : SessionState)
    (h : s.isStopping = true ∨ s.status ≠ AssistantStatus.listening) :
    stopAndProcessSync s = s :=
  stopAndProcessSync_guarded s h

/-- Claim C3: finalizing while the accumulated transcript trims to the
empty string transitions directly to Idle, clears the guard, and issues
no network request. -/
theorem finalize_empty_transcript_idle (s : SessionState)
    (h1 : s.status = AssistantStatus.listening) (h2 : s.isStopping = false)
    (h3 : strTrim s.transcript = "") :
    (stopAndProcessSync s).status = AssistantStatus.idle ∧
    (stopAndProcessSync s).isStopping = false ∧
    (stopAndProcessSync s).requests = s.requests ∧
    (stopAndProcessSync s).inFlight = s.inFlight := by
  rw [stopAndProcessSync_run s h2 h1, if_pos h3]
  simp

/-- Claim C4: a recognition error delivered after finalization has begun
(`isStoppingRef` set) is suppressed: the handler returns without touching
any state, so the status does not move away from Processing or Idle. -/
theorem recognition_error_suppressed_while_finalizing (s : SessionState)
    (kind : String) (h : s.isStopping = true) :
    recOnerror kind s = s := by
  simp [recOnerror, h]

/-- Claim C10: a spontaneous `end` event from the recognition session is
a no-op: the handler is the empty function, and the event changes neither
status, transcript, silence timer, guard, request count nor the
recognition handle, so a Listening turn is concluded only by the silence
timer or the user's trigger action. -/
theorem recognition_end_noop (s : SessionState) :
    recOnend s = s ∧
    (step s Ev.recEndEv).status = s.status ∧
    (step s Ev.recEndEv).transcript = s.transcript ∧
    (step s Ev.recEndEv).timersLive = s.timersLive ∧
    (step s Ev.recEndEv).refLive = s.refLive ∧
    (step s Ev.recEndEv).isStopping = s.isStopping ∧
    (step s Ev.recEndEv).requests = s.requests ∧
    (step s Ev.recEndEv).inFlight = s.inFlight ∧
    (step s Ev.recEndEv).recognitionActive = s.recognitionActive := by
  simp [step, recOnend]

/-- Claim C2 (counterexample): interim text does contribute to the stored
transcript.  For a result event whose list is `[interim "x", final "y"]`
— a sequence ending in a final result — the handler stores "yx" in
`lastTranscriptRef`, not the finalized text "y". -/
theorem onresult_interim_contributes :
    (recOnresult [⟨false, "x"⟩, ⟨true, "y"⟩] initState).transcript = "yx" ∧
    concatFinal [⟨false, "x"⟩, ⟨true, "y"⟩] = "y" ∧
    ("yx" : String) ≠ "y" := by
  refine ⟨by decide, by decide, by decide⟩

/-- Claim C2 (amended): the stored transcript equals the trimmed
concatenation of the final segments followed by the interim segments of
the most recent result event; only when that event carries no interim
results does it equal the trimmed concatenation of the finalized segments
alone. -/
theorem onresult_transcript_rebuild (rs : List RecResult) (s : SessionState) :
    (recOnresult rs s).transcript = strTrim (concatFinal rs ++ concatInterim rs) ∧
    ((∀ r ∈ rs, r.isFinal = true) →
      (recOnresult rs s).transcript = strTrim (concatFinal rs)) := by
  have hbase : (recOnresult rs s).transcript = strTrim (concatFinal rs ++ concatInterim rs) := by
    simp [recOnresult, accumulate_eq, armTimer_eq]
  refine ⟨hbase, fun h => ?_⟩
  rw [hbase, concatInterim_of_all_final rs h, String.append_empty]

theorem onresult_transcript_rebuild_witness :
    (recOnresult [⟨true, "oi"⟩] initState).transcript =
      strTrim (concatFinal [⟨true, "oi"⟩]) :=
  (onresult_transcript_rebuild [⟨true, "oi"⟩] initState).2 (by decide)

theorem reachable_demoListening : Reachable demoListening :=
  Reachable.next (.recResultEv [⟨true, "oi"⟩])
    (Reachable.next .recStartEv
      (Reachable.next (.click true true) Reachable.init (by decide))
      (by decide))
    (by decide)

theorem reachable_demoExchange : Reachable demoExchange :=
  Reachable.next .fetchOkEv
    (Reachable.next .timerFire reachable_demoListening (by decide))
    (by decide)

/-- Claim C5 (code bug, evaluated at a reachable failing input): on the
playback-failure exit paths the guard is indeed cleared and the object
URL revoked exactly once, but the final status is Idle, not Error — the
`onerror` handler and the `play()` rejection handler set Error and then
call `cleanupAndReset`, which unconditionally sets Idle, overwriting it.
The success path (ended → Idle) and the thrown-exchange path
(catch → Error) behave as the claim states. -/
theorem playback_failure_ends_idle :
    Reachable demoExchange ∧
    demoExchange.status = AssistantStatus.processing ∧
    demoExchange.isStopping = true ∧
    demoExchange.urlAllocated = true ∧
    (audioOnerror demoExchange).status = AssistantStatus.idle ∧
    ¬(audioOnerror demoExchange).status = AssistantStatus.error ∧
    (audioOnerror demoExchange).isStopping = false ∧
    (audioOnerror demoExchange).revokes = demoExchange.revokes + 1 ∧
    (audioOnerror demoExchange).urlAllocated = false ∧
    (playRejected demoExchange).status = AssistantStatus.idle ∧
    (playRejected demoExchange).isStopping = false ∧
    (audioOnended demoExchange).status = AssistantStatus.idle ∧
    (audioOnended demoExchange).isStopping = false ∧
    (fetchFailure demoProcessing).status = AssistantStatus.error ∧
    (fetchFailure demoProcessing).isStopping = false :=
  ⟨reachable_demoExchange, by decide⟩

/-- Claim C6: a non-success response (the thrown server-error) moves the
turn from Processing to Error, never touches the playback controller
(audio handlers, object URL, revocations and the pending play call are
exactly as before), and clears the guard; from the resulting Error state
the trigger action dispatches to starting a new turn. -/
theorem fetch_failure_to_error (s : SessionState)
    (h : s.status = AssistantStatus.processing) :
    s.status = AssistantStatus.processing ∧
    (fetchFailure s).status = AssistantStatus.error ∧
    (fetchFailure s).isStopping = false ∧
    (fetchFailure s).requests = s.requests ∧
    (fetchFailure s).audioHandlers = s.audioHandlers ∧
    (fetchFailure s).urlAllocated = s.urlAllocated ∧
    (fetchFailure s).revokes = s.revokes ∧
    (fetchFailure s).playPending = s.playPending ∧
    handleOrbClick true true (fetchFailure s) =
      startRecognition true true (fetchFailure s) := by
  refine ⟨h, ?_, ?_, ?_, ?_, ?_, ?_, ?_, ?_⟩ <;> simp [fetchFailure, handleOrbClick]

theorem fetch_failure_to_error_witness :
    demoProcessing.status = AssistantStatus.processing ∧
    (fetchFailure demoProcessing).status = AssistantStatus.error ∧
    (fetchFailure demoProcessing).isStopping = false :=
  ⟨by decide, (fetch_failure_to_error demoProcessing (by decide)).2.1,
    (fetch_failure_to_error demoProcessing (by decide)).2.2.1⟩

/-- Claim C7: the single trigger action dispatches on the current status:
Processing and Playing ignore it (no state change), Listening finalizes,
Idle and Error begin a new turn — the handler runs `startRecognition`,
which installs a fresh session with an empty transcript and a cleared
guard, and the session's subsequent start event yields Listening. -/
theorem orb_click_dispatch (avail startOk : Bool) (s : SessionState) :
    ((s.status = AssistantStatus.processing ∨ s.status = AssistantStatus.playing) →
      handleOrbClick avail startOk s = s) ∧
    (s.status = AssistantStatus.listening →
      handleOrbClick avail startOk s = stopAndProcessSync s) ∧
    ((s.status = AssistantStatus.idle ∨ s.status = AssistantStatus.error) →
      handleOrbClick avail startOk s = startRecognition avail startOk s) ∧
    ((s.status = AssistantStatus.idle ∨ s.status = AssistantStatus.error) →
      (handleOrbClick true true s).recognitionActive = true ∧
      (handleOrbClick true true s).transcript = "" ∧
      (handleOrbClick true true s).isStopping = false ∧
      (step (handleOrbClick true true s) Ev.recStartEv).status =
        AssistantStatus.listening) := by
  refine ⟨fun h => ?_, fun h => ?_, fun h => ?_, fun h => ?_⟩
  · rcases h with h | h <;> simp [handleOrbClick, h]
  · simp [handleOrbClick, h]
  · rcases h with h | h <;> simp [handleOrbClick, h]
  · have hs : handleOrbClick true true s = startRecognition true true s := by
      rcases h with h | h <;> simp [handleOrbClick, h]
    rw [hs]
    unfold startRecognition
    by_cases hra : s.recognitionActive = true <;>
      simp [hra, step, recOnstart, armTimer_eq]

theorem orb_click_dispatch_witness :
    handleOrbClick true true demoProcessing = demoProcessing ∧
    handleOrbClick true true demoListening = stopAndProcessSync demoListening ∧
    handleOrbClick true true initState = startRecognition true true initState ∧
    (step (handleOrbClick true true initState) Ev.recStartEv).status =
      AssistantStatus.listening :=
  ⟨(orb_click_dispatch true true demoProcessing).1 (Or.inl (by decide)),
   (orb_click_dispatch true true demoListening).2.1 (by decide),
   (orb_click_dispatch true true initState).2.2.1 (Or.inl (by decide)),
   ((orb_click_dispatch true true initState).2.2.2 (Or.inl (by decide))).2.2.2⟩

theorem finalize_noop_when_guarded_witness :
    (demoProcessing.isStopping = true ∨
      demoProcessing.status ≠ AssistantStatus.listening) ∧
    stopAndProcessSync demoProcessing = demoProcessing :=
  ⟨Or.inl (by decide), finalize_noop_when_guarded demoProcessing (Or.inl (by decide))⟩

theorem finalize_empty_transcript_idle_witness :
    demoListeningEmpty.status = AssistantStatus.listening ∧
    demoListeningEmpty.isStopping = false ∧
    strTrim demoListeningEmpty.transcript = "" ∧
    (stopAndProcessSync demoListeningEmpty).status = AssistantStatus.idle ∧
    (stopAndProcessSync demoListeningEmpty).requests = demoListeningEmpty.requests :=
  ⟨by decide, by decide, by decide,
   (finalize_empty_transcript_idle demoListeningEmpty (by decide) (by decide) (by decide)).1,
   (finalize_empty_transcript_idle demoListeningEmpty (by decide) (by decide)
      (by decide)).2.2.1⟩

theorem recognition_error_suppressed_witness :
    demoProcessing.isStopping = true ∧
    recOnerror "no-speech" demoProcessing = demoProcessing :=
  ⟨by decide,
    recognition_error_suppressed_while_finalizing demoProcessing "no-speech" (by decide)⟩

theorem controllerInv_init : ControllerInv initState := by
  unfold ControllerInv
  decide

theorem controllerInv_step {s : SessionState} (e : Ev) (hc : canFire s e = true)
    (hinv : ControllerInv s) : ControllerInv (step s e) := by
  obtain ⟨i1, i2, i3, i4, i5, i6, i7, i8, i9, i10, i11, i12, i13, i14, i15⟩ := hinv
  cases e with
  | click avail startOk =>
      simp only [step]
      unfold handleOrbClick
      by_cases hl : s.status = AssistantStatus.listening
      · rw [if_pos hl]
        have h2 := i14 hl
        have htl := i3 hl
        have hrl : s.refLive = true := i2.mpr htl
        have hnfl : s.inFlight = false := by
          cases hif : s.inFlight
          · rfl
          · have h' := i11 hif; simp [hl] at h'
        have hnah : s.audioHandlers = false := by
          cases hah : s.audioHandlers
          · rfl
          · rcases i12 hah with h' | h' <;> simp [hl] at h'
        have hrunX : (if s.recognitionActive = true then false else s.recRunning) = false := by
          cases hA : s.recognitionActive
          · simp only [Bool.false_eq_true, if_neg]
            cases hR : s.recRunning
            · rfl
            · exact absurd (i10 hR) (by simp [hA])
          · simp
        rw [stopAndProcessSync_run s h2 hl]
        by_cases htr : strTrim s.transcript = ""
        · rw [if_pos htr]
          unfold ControllerInv
          simp [hrl, htl, hrunX, hnfl, hnah]
        · rw [if_neg htr]
          unfold ControllerInv
          simp [hrl, htl, hrunX, hnfl, hnah]
      · rw [if_neg hl]
        by_cases hie : s.status = AssistantStatus.idle ∨ s.status = AssistantStatus.error
        · rw [if_pos hie]
          have hnfl : s.inFlight = false := by
            cases hif : s.inFlight
            · rfl
            · have h' := i11 hif; rcases hie with h | h <;> simp [h] at h'
          have hnah : s.audioHandlers = false := by
            cases hah : s.audioHandlers
            · rfl
            · rcases i12 hah with h' | h' <;> rcases hie with h | h <;>
                simp [h] at h'
          unfold startRecognition
          by_cases hav : avail = false
          · rw [if_pos hav]
            unfold ControllerInv
            simp [hnfl, hnah, i1, i2]
            exact ⟨i10, i15⟩
          · rw [if_neg hav]
            by_cases hra : s.recognitionActive = true <;>
              by_cases hok : startOk = true <;>
                rcases hie with h | h <;>
                  · unfold ControllerInv
                    simp [hra, hok, h, hnfl, hnah, i1, i2, i4, i7]
        · rw [if_neg hie]
          exact ⟨i1, i2, i3, i4, i5, i6, i7, i8, i9, i10, i11, i12, i13, i14, i15⟩
  | timerFire =>
      simp only [canFire] at hc
      have htl := i2.mp hc
      simp only [step]
      by_cases hl : s.status = AssistantStatus.listening
      · have h2 : (consumeTimer s).isStopping = false := by simp [consumeTimer, i14 hl]
        have h3 : (consumeTimer s).status = AssistantStatus.listening := by
          simp [consumeTimer, hl]
        have hnfl : s.inFlight = false := by
          cases hif : s.inFlight
          · rfl
          · have h' := i11 hif; simp [hl] at h'
        have hnah : s.audioHandlers = false := by
          cases hah : s.audioHandlers
          · rfl
          · rcases i12 hah with h' | h' <;> simp [hl] at h'
        have hrunX : (if s.recognitionActive = true then false else s.recRunning) = false := by
          cases hA : s.recognitionActive
          · simp only [Bool.false_eq_true, if_neg]
            cases hR : s.recRunning
            · rfl
            · exact absurd (i10 hR) (by simp [hA])
          · simp
        rw [stopAndProcessSync_run _ h2 h3]
        by_cases htr : strTrim s.transcript = ""
        · rw [if_pos (by simpa [consumeTimer] using htr)]
          unfold ControllerInv consumeTimer
          simp [htl, hrunX, hnfl, hnah]
        · rw [if_neg (by simpa [consumeTimer] using htr)]
          unfold ControllerInv consumeTimer
          simp [htl, hrunX, hnfl, hnah]
      · rw [stopAndProcessSync_guarded _ (Or.inr (by simp [consumeTimer, hl]))]
        unfold ControllerInv consumeTimer
        simp [htl, hl]
        exact ⟨i7, i8, i9, i10, i11, i12, i13, i15⟩
  | recStartEv =>
      simp only [canFire, Bool.and_eq_true, Bool.not_eq_true'] at hc
      obtain ⟨hact, hnrun⟩ := hc
      have hstop : s.isStopping = false := by
        cases hsp : s.isStopping
        · rfl
        · exact absurd (i15 hsp) (by simp [hact])
      have hnfl : s.inFlight = false := by
        cases hif : s.inFlight
        · rfl
        · exact absurd (i8 (i11 hif)) (by simp [hact])
      have hnah : s.audioHandlers = false := by
        cases hah : s.audioHandlers
        · rfl
        · rcases i12 hah with h' | h'
          · exact absurd (i8 h') (by simp [hact])
          · exact absurd (i9 h') (by simp [hact])
      have htl0 : (if s.refLive = true then s.timersLive - 1 else s.timersLive) = 0 := by
        by_cases hr : s.refLive = true
        · rw [if_pos hr, i2.mp hr]
        · rw [if_neg hr]
          have h1 : s.timersLive ≠ 1 := fun h => hr (i2.mpr h)
          omega
      simp only [step, recOnstart, armTimer_eq]
      unfold ControllerInv
      simp [htl0, hact, hstop, hnfl, hnah]
  | recResultEv rs =>
      simp only [canFire, Bool.and_eq_true] at hc
      obtain ⟨hact, hrun⟩ := hc
      have hstop : s.isStopping = false := by
        cases hsp : s.isStopping
        · rfl
        · exact absurd (i15 hsp) (by simp [hact])
      have hnfl : s.inFlight = false := by
        cases hif : s.inFlight
        · rfl
        · exact absurd (i8 (i11 hif)) (by simp [hact])
      have hnah : s.audioHandlers = false := by
        cases hah : s.audioHandlers
        · rfl
        · rcases i12 hah with h' | h'
          · exact absurd (i8 h') (by simp [hact])
          · exact absurd (i9 h') (by simp [hact])
      have h4 : ¬s.status = AssistantStatus.idle := fun h => by simp [i7 h] at hrun
      have h5 : ¬s.status = AssistantStatus.processing := fun h => by simp [i8 h] at hact
      have h6 : ¬s.status = AssistantStatus.playing := fun h => by simp [i9 h] at hact
      have htl0 : (if s.refLive = true then s.timersLive - 1 else s.timersLive) = 0 := by
        by_cases hr : s.refLive = true
        · rw [if_pos hr, i2.mp hr]
        · rw [if_neg hr]
          have h1 : s.timersLive ≠ 1 := fun h => hr (i2.mpr h)
          omega
      simp only [step, recOnresult, armTimer_eq]
      unfold ControllerInv
      simp [htl0, hact, hrun, hstop, hnfl, hnah, h4, h5, h6, i14]
  | recErrorEv kind =>
      simp only [canFire] at hc
      by_cases hsp : s.isStopping = true
      · simp only [step, recOnerror, hsp, if_pos]
        exact ⟨i1, i2, i3, i4, i5, i6, i7, i8, i9, i10, i11, i12, i13, i14, i15⟩
      · have hnfl : s.inFlight = false := by
          cases hif : s.inFlight
          · rfl
          · exact absurd (i8 (i11 hif)) (by simp [hc])
        have hnah : s.audioHandlers = false := by
          cases hah : s.audioHandlers
          · rfl
          · rcases i12 hah with h' | h'
            · exact absurd (i8 h') (by simp [hc])
            · exact absurd (i9 h') (by simp [hc])
        simp only [step]
        unfold recOnerror
        rw [if_neg hsp]
        unfold ControllerInv
        simp [hnfl, hnah, i1, i2]
        exact ⟨i10, i15⟩
  | recEndEv =>
      simp only [step, recOnend]
      unfold ControllerInv
      simp [i1, i2]
      exact ⟨i3, i4, i5, i6, i8, i9, i11, i12, i13, i14, i15⟩
  | fetchOkEv =>
      simp only [canFire] at hc
      have hst := i11 hc
      have hrl0 : s.refLive = false := by
        cases hr : s.refLive
        · rfl
        · have h1 := i2.mp hr
          have h2 := i5 hst
          omega
      have hrun0 : s.recRunning = false := by
        cases hr : s.recRunning
        · rfl
        · exact absurd (i10 hr) (by simp [i8 hst])
      simp only [step]
      unfold fetchSuccess
      by_cases hu : s.urlAllocated = true <;>
        · unfold ControllerInv
          simp [hu, hst, i5 hst, i8 hst, i15]
          exact ⟨hrl0, hrun0⟩
  | fetchFailEv =>
      simp only [canFire] at hc
      have hnah := i13 hc
      simp only [step]
      unfold fetchFailure
      unfold ControllerInv
      simp [hnah, i1, i2]
      exact i10
  | playStartedEv =>
      simp only [canFire, Bool.and_eq_true] at hc
      obtain ⟨hah, hpp⟩ := hc
      have hst := i12 hah
      have htl0 : s.timersLive = 0 := by rcases hst with h | h <;> [exact i5 h; exact i6 h]
      have hact0 : s.recognitionActive = false := by
        rcases hst with h | h <;> [exact i8 h; exact i9 h]
      have hnfl : s.inFlight = false := by
        cases hif : s.inFlight
        · rfl
        · exact absurd (i13 hif) (by simp [hah])
      have hrun0 : s.recRunning = false := by
        cases hr : s.recRunning
        · rfl
        · exact absurd (i10 hr) (by simp [hact0])
      simp only [step, audioOnplay]
      unfold ControllerInv
      simp [htl0, hact0, hnfl, hah, hrun0, i2, i15]
  | playEndedEv =>
      simp only [canFire] at hc
      have hst := i12 hc
      have htl0 : s.timersLive = 0 := by rcases hst with h | h <;> [exact i5 h; exact i6 h]
      have hact0 : s.recognitionActive = false := by
        rcases hst with h | h <;> [exact i8 h; exact i9 h]
      have hrun0 : s.recRunning = false := by
        cases hr : s.recRunning
        · rfl
        · exact absurd (i10 hr) (by simp [hact0])
      have hnfl : s.inFlight = false := by
        cases hif : s.inFlight
        · rfl
        · exact absurd (i13 hif) (by simp [hc])
      simp only [step, audioOnended, cleanupAndReset_eq]
      unfold ControllerInv
      simp [htl0, hact0, hrun0, hnfl, i2]
  | playFailedEv =>
      simp only [canFire] at hc
      have hst := i12 hc
      have htl0 : s.timersLive = 0 := by rcases hst with h | h <;> [exact i5 h; exact i6 h]
      have hact0 : s.recognitionActive = false := by
        rcases hst with h | h <;> [exact i8 h; exact i9 h]
      have hrun0 : s.recRunning = false := by
        cases hr : s.recRunning
        · rfl
        · exact absurd (i10 hr) (by simp [hact0])
      have hnfl : s.inFlight = false := by
        cases hif : s.inFlight
        · rfl
        · exact absurd (i13 hif) (by simp [hc])
      simp only [step, audioOnerror, cleanupAndReset_eq]
      unfold ControllerInv
      simp [htl0, hact0, hrun0, hnfl, i2]
  | playRejectedEv =>
      simp only [canFire, Bool.and_eq_true] at hc
      obtain ⟨hah, hpp⟩ := hc
      have hst := i12 hah
      have htl0 : s.timersLive = 0 := by rcases hst with h | h <;> [exact i5 h; exact i6 h]
      have hact0 : s.recognitionActive = false := by
        rcases hst with h | h <;> [exact i8 h; exact i9 h]
      have hrun0 : s.recRunning = false := by
        cases hr : s.recRunning
        · rfl
        · exact absurd (i10 hr) (by simp [hact0])
      have hnfl : s.inFlight = false := by
        cases hif : s.inFlight
        · rfl
        · exact absurd (i13 hif) (by simp [hah])
      simp only [step, playRejected, cleanupAndReset_eq]
      unfold ControllerInv
      simp [htl0, hact0, hrun0, hnfl, i2]

theorem controllerInv_of_reachable {s : SessionState} (h : Reachable s) :
    ControllerInv s := by
  induction h with
  | init => exact controllerInv_init
  | next e _ hcf ih => exact controllerInv_step e hcf ih

/-- Claim C8 (amended): in every reachable state at most one silence
timer is ever live — every arming cancels the pending one first and the
ref always holds exactly the live timer — with exactly one pending while
Listening and none while Idle, Processing or Playing.  The original
claim's clause for Error fails: a recognition error during Listening
leaves the pending timer running (counterexample below), where its
eventual firing is a guarded no-op. -/
theorem silence_timer_invariant (s : SessionState) (h : Reachable s) :
    s.timersLive ≤ 1 ∧
    (s.refLive = true ↔ s.timersLive = 1) ∧
    (s.status = AssistantStatus.listening → s.timersLive = 1) ∧
    (s.status = AssistantStatus.idle → s.timersLive = 0) ∧
    (s.status = AssistantStatus.processing → s.timersLive = 0) ∧
    (s.status = AssistantStatus.playing → s.timersLive = 0) := by
  obtain ⟨i1, i2, i3, i4, i5, i6, _⟩ := controllerInv_of_reachable h
  exact ⟨i1, i2, i3, i4, i5, i6⟩

theorem silence_timer_invariant_witness :
    demoListening.timersLive ≤ 1 ∧
    (demoListening.refLive = true ↔ demoListening.timersLive = 1) ∧
    (demoListening.status = AssistantStatus.listening → demoListening.timersLive = 1) ∧
    (demoListening.status = AssistantStatus.idle → demoListening.timersLive = 0) ∧
    (demoListening.status = AssistantStatus.processing → demoListening.timersLive = 0) ∧
    (demoListening.status = AssistantStatus.playing → demoListening.timersLive = 0) :=
  silence_timer_invariant demoListening reachable_demoListening

/-- Claim C8 (counterexample): a reachable state with status Error and a
live pending silence timer — a recognition error during Listening moves
to Error without cancelling the timer, refuting "no silence timer is
pending while status is Error".  When that timer later fires, the
finalize guard makes it a no-op (status stays Error, no request). -/
theorem silence_timer_pending_in_error :
    Reachable demoErrorWithTimer ∧
    demoErrorWithTimer.status = AssistantStatus.error ∧
    demoErrorWithTimer.timersLive = 1 ∧
    demoErrorWithTimer.refLive = true ∧
    (step demoErrorWithTimer Ev.timerFire).status = AssistantStatus.error ∧
    (step demoErrorWithTimer Ev.timerFire).requests = demoErrorWithTimer.requests :=
  ⟨Reachable.next (.recErrorEv "network") reachable_demoListening (by decide), by decide⟩

end IAVoice
